import Mathlib

/-
Verification development for the `google_nest` Home Assistant integration
(custom_components/google_nest).  The definitions below are a shallow
embedding of the session/authentication logic and the long-poll
subscription loop:

  * `custom_components/google_nest/__init__.py`
      - `async_setup_entry`            (startup classification, snapshot loop)
      - `_async_subscribe_for_data`    (delta processing, cursor update,
                                        error-branch re-arm policy)
  * `custom_components/google_nest/api/client.py`
      - `NestClient.get_access_token`
      - `NestClient.get_access_token_from_refresh_token`
      - `NestClient.get_access_token_from_cookies`
      - `NestClient.authenticate`
      - `NestClient.subscribe_for_data` (HTTP status classification)
  * `custom_components/google_nest/api/exceptions.py` (class hierarchy)

Python dicts are modelled as association lists (`List (String × α)`) with
Python's `d[k] = v` semantics (replace in place if present, append
otherwise), which preserves insertion order exactly like CPython dicts.
-/

namespace GoogleNest

/-! ## Python-style string helpers

`splitDot` is Python's `str.split(".")`: `"a.b.c" → ["a","b","c"]`,
`"abc" → ["abc"]`, `"" → [""]`.  `listStarts` / `startsWith` model
Python's `str.startswith`. -/

def splitDotAux : List Char → List Char → List String
  | [], acc => [String.mk acc.reverse]
  | c :: cs, acc =>
      if c = '.' then String.mk acc.reverse :: splitDotAux cs []
      else splitDotAux cs (c :: acc)

def splitDot (s : String) : List String :=
  splitDotAux s.toList []

def listStarts : List Char → List Char → Bool
  | [], _ => true
  | _ :: _, [] => false
  | a :: as, b :: bs => a = b && listStarts as bs

def pyStartswith (s p : String) : Bool :=
  listStarts p.toList s.toList

/-! ## Python dict as association list -/

def dictKeys {α : Type} (d : List (String × α)) : List String :=
  d.map Prod.fst

def dictInsert {α : Type} (d : List (String × α)) (k : String) (v : α) :
    List (String × α) :=
  if (dictKeys d).contains k then
    d.map (fun p => if p.1 = k then (k, v) else p)
  else
    d ++ [(k, v)]

def dictGet {α : Type} (d : List (String × α)) (k : String) : Option α :=
  (d.find? (fun p => p.1 == k)).map Prod.snd

/-! ## Buckets (revisioned records)

`api/models/bucket.py` defines `Bucket` with fields `object_key`,
`object_revision`, `object_timestamp`, `value`.  The typed subclasses
(`QuartzBucket`, `DeviceBucket`, ...) are dataclasses with the same four
fields; construction `XBucket(**bucket)` performs no validation, and the
`value` payload stays the raw JSON dict.  We model the payload as a record
holding exactly the fields the integration reads
(`value["name"]`, `value["time_zone"]`, `value["where_id"]`,
`value["model_version"]`, `value["current_version"]`,
`value["structure"]`, `value["associated_rcs_sensors"]`,
`value["wheres"]` as a list of `(where_id, name)` pairs). -/

structure BucketValue where
  name : String
  time_zone : String
  where_id : String
  model_version : String
  current_version : String
  structure_field : String
  associated_rcs_sensors : List String
  wheres : List (String × String)
deriving DecidableEq

structure Bucket where
  object_key : String
  object_revision : Int
  object_timestamp : Int
  value : BucketValue
deriving DecidableEq

/-- The recognized bucket types, i.e. the key prefixes routed by the
`key.startswith(...)` chain in `async_setup_entry` and
`_async_subscribe_for_data`. -/
inductive BucketType
  | quartz | topaz | safety | structureT | device | link
  | rcs_settings | shared | track | kryptonite | whereT
deriving DecidableEq

/-- Routing of an object key to a bucket type.  The source tests the
prefixes in consecutive independent `if` statements; since no string can
start with two of these pairwise-incompatible prefixes, the first-match
chain below is extensionally the same routing. -/
def bucketTypeOf (key : String) : Option BucketType :=
  if pyStartswith key "quartz." then some .quartz
  else if pyStartswith key "topaz." then some .topaz
  else if pyStartswith key "safety." then some .safety
  else if pyStartswith key "structure." then some .structureT
  else if pyStartswith key "device." then some .device
  else if pyStartswith key "link." then some .link
  else if pyStartswith key "rcs_settings." then some .rcs_settings
  else if pyStartswith key "shared." then some .shared
  else if pyStartswith key "track." then some .track
  else if pyStartswith key "kryptonite." then some .kryptonite
  else if pyStartswith key "where." then some .whereT
  else none

/-- `key.split(".")[1]` where the surrounding branch guard guarantees the
key contains a `"."`, so index 1 exists and the default is never used. -/
def keyId (key : String) : String :=
  (splitDot key).getD 1 ""

/-! ## The shared mutable state (`HomeAssistantGoogleNestData`)

The fields of `entry_data` the subscription loop mutates: the keyed device
store and the derived indices. -/

structure EntryData where
  structures : List (String × String)
  thermostats : List (String × String)
  thermostat_device_info : List (String × (String × String))
  sensors : List (String × String)
  areas : List (String × String)
  swarms : List (String × String)
  time_zones : List (String × String)
  devices : List (String × Bucket)
deriving DecidableEq

/-! ## Delta processing (`_async_subscribe_for_data`, lines 335-420)

For each bucket of `result["objects"]` the loop routes on the key prefix,
unconditionally overwrites `entry_data.devices[key]` and the relevant
derived indices, and calls `async_dispatcher_send(hass, key, bucket)` —
modelled as the `(key, bucket)` event list in the second component.
There is no revision comparison anywhere in this loop.
Note the `where.` branch updates only `areas` and sends no dispatcher
event and stores nothing in `devices`. -/

def processDeltaBucket (e : EntryData) (b : Bucket) :
    EntryData × List (String × Bucket) :=
  let key := b.object_key
  match bucketTypeOf key with
  | some .quartz =>
      ({ e with devices := dictInsert e.devices key b }, [(key, b)])
  | some .topaz =>
      ({ e with devices := dictInsert e.devices key b }, [(key, b)])
  | some .safety =>
      ({ e with devices := dictInsert e.devices key b }, [(key, b)])
  | some .structureT =>
      ({ e with
          devices := dictInsert e.devices key b,
          structures := dictInsert e.structures (keyId key) b.value.name,
          time_zones := dictInsert e.time_zones (keyId key) b.value.time_zone },
        [(key, b)])
  | some .device =>
      ({ e with
          devices := dictInsert e.devices key b,
          thermostats := dictInsert e.thermostats (keyId key) b.value.where_id,
          thermostat_device_info :=
            dictInsert e.thermostat_device_info (keyId key)
              (b.value.model_version, b.value.current_version) },
        [(key, b)])
  | some .link =>
      ({ e with
          devices := dictInsert e.devices key b,
          swarms := dictInsert e.swarms (keyId key) (keyId b.value.structure_field) },
        [(key, b)])
  | some .rcs_settings =>
      ({ e with
          devices := dictInsert e.devices key b,
          swarms := b.value.associated_rcs_sensors.foldl
            (fun sw s => dictInsert sw (keyId s) (keyId key)) e.swarms },
        [(key, b)])
  | some .shared =>
      ({ e with devices := dictInsert e.devices key b }, [(key, b)])
  | some .track =>
      ({ e with devices := dictInsert e.devices key b }, [(key, b)])
  | some .kryptonite =>
      ({ e with
          devices := dictInsert e.devices key b,
          sensors := dictInsert e.sensors key b.value.where_id },
        [(key, b)])
  | some .whereT =>
      ({ e with
          areas := b.value.wheres.foldl
            (fun a w => dictInsert a w.1 w.2) e.areas },
        [])
  | none => (e, [])

/-- Processing of a whole `result["objects"]` list, in list order,
accumulating the dispatched `(key, bucket)` events. -/
def processDelta (e : EntryData) (objects : List Bucket) :
    EntryData × List (String × Bucket) :=
  objects.foldl
    (fun acc b =>
      let r := processDeltaBucket acc.1 b
      (r.1, acc.2 ++ r.2))
    (e, [])

/-! ## Snapshot processing (`async_setup_entry`, lines 184-255)

The initial-snapshot loop differs from the delta loop in two load-bearing
ways: (1) `id = key.split(".")[1]` is computed unconditionally before any
prefix test, so a key without a `"."` raises `IndexError` and aborts the
whole loop; (2) no dispatcher events are sent, and devices are collected
into a list that is turned into `{b.object_key: b for b in devices}` at
the end — per-record `dictInsert` yields the same final dict.  The
`quartz.` branch additionally creates a `DataUpdateCoordinator` (a
framework object for camera polling, outside the object store); that side
effect is not modelled. -/

def processSnapshotBucket (e : EntryData) (b : Bucket) :
    Except String EntryData :=
  let key := b.object_key
  if 2 ≤ (splitDot key).length then
    let i := keyId key
    Except.ok (match bucketTypeOf key with
      | some .quartz => { e with devices := dictInsert e.devices key b }
      | some .topaz => { e with devices := dictInsert e.devices key b }
      | some .safety => { e with devices := dictInsert e.devices key b }
      | some .structureT =>
          { e with
              devices := dictInsert e.devices key b,
              structures := dictInsert e.structures i b.value.name,
              time_zones := dictInsert e.time_zones i b.value.time_zone }
      | some .device =>
          { e with
              devices := dictInsert e.devices key b,
              thermostats := dictInsert e.thermostats i b.value.where_id,
              thermostat_device_info :=
                dictInsert e.thermostat_device_info i
                  (b.value.model_version, b.value.current_version) }
      | some .link =>
          { e with
              devices := dictInsert e.devices key b,
              swarms := dictInsert e.swarms i (keyId b.value.structure_field) }
      | some .rcs_settings =>
          { e with
              devices := dictInsert e.devices key b,
              swarms := b.value.associated_rcs_sensors.foldl
                (fun sw s => dictInsert sw (keyId s) i) e.swarms }
      | some .shared => { e with devices := dictInsert e.devices key b }
      | some .track => { e with devices := dictInsert e.devices key b }
      | some .kryptonite =>
          { e with
              devices := dictInsert e.devices key b,
              sensors := dictInsert e.sensors key b.value.where_id }
      | some .whereT =>
          { e with
              areas := b.value.wheres.foldl
                (fun a w => dictInsert a w.1 w.2) e.areas }
      | none => e)
  else
    Except.error "IndexError: list index out of range"

def processSnapshot (e : EntryData) : List Bucket → Except String EntryData
  | [] => Except.ok e
  | b :: rest =>
      match processSnapshotBucket e b with
      | Except.ok e2 => processSnapshot e2 rest
      | Except.error m => Except.error m

/-! ## Subscription-cursor update (`_async_subscribe_for_data`, lines 422-428)

```
buckets = {d["object_key"]: d for d in result["objects"]}
objects = [dict(d, **buckets.get(d["object_key"], {}))
           for d in data["updated_buckets"]]
data["updated_buckets"] = objects
```

The dict comprehension keeps the *last* entry per key (later duplicates
win), modelled by `lastLookup`.  `dict(d, **resp)` overrides every field
of `d` with `resp`'s fields; since both dicts carry the same bucket
fields, the merged entry is `resp` itself. -/

def lastLookup (objects : List Bucket) (k : String) : Option Bucket :=
  objects.reverse.find? (fun b => b.object_key == k)

def updateCursor (updated_buckets objects : List Bucket) : List Bucket :=
  updated_buckets.map (fun d =>
    match lastLookup objects d.object_key with
    | some b => b
    | none => d)

/-! ## Exception taxonomy

`api/exceptions.py` declares every exception as a direct subclass of
`Exception`, except `GatewayTimeoutException` and `BadGatewayException`
which subclass `NestServiceException`; `NestException` has no subclasses
of its own.  `ServerDisconnectedError` and `ClientConnectorError` are
aiohttp `ClientError` subclasses; `asyncio.TimeoutError` is (a subclass
of) the builtin `TimeoutError`.  `OtherException` stands for any
exception outside these classes. -/

inductive PyExc
  | ServerDisconnectedError
  | TimeoutError
  | ClientConnectorError
  | NotAuthenticatedException
  | GatewayTimeoutException
  | BadGatewayException
  | NestServiceException
  | NestException
  | BadCredentialsException
  | InternalServerException
  | ClientError
  | OtherException
deriving DecidableEq

def isServerDisconnected : PyExc → Bool
  | .ServerDisconnectedError => true
  | _ => false

def isTimeout : PyExc → Bool
  | .TimeoutError => true
  | _ => false

def isClientConnector : PyExc → Bool
  | .ClientConnectorError => true
  | _ => false

def isNotAuthenticated : PyExc → Bool
  | .NotAuthenticatedException => true
  | _ => false

def isNestService : PyExc → Bool
  | .GatewayTimeoutException => true
  | .BadGatewayException => true
  | .NestServiceException => true
  | _ => false

def isNestExc : PyExc → Bool
  | .NestException => true
  | _ => false

def isBadCredentials : PyExc → Bool
  | .BadCredentialsException => true
  | _ => false

def isClientError : PyExc → Bool
  | .ServerDisconnectedError => true
  | .ClientConnectorError => true
  | .ClientError => true
  | _ => false

/-- HTTP status classification in `NestClient.subscribe_for_data`
(lines 305-312): 401 raises `NotAuthenticatedException`, 504 raises
`GatewayTimeoutException`, 502 raises `BadGatewayException`; other
statuses proceed to JSON parsing. -/
def subscribeStatusError (status : Nat) : Option PyExc :=
  if status = 401 then some .NotAuthenticatedException
  else if status = 504 then some .GatewayTimeoutException
  else if status = 502 then some .BadGatewayException
  else none

/-! ## One subscription-loop cycle (`_async_subscribe_for_data`)

The whole body — the pre-poll token refresh, the long-poll call, and the
per-bucket processing — sits inside one `try`; `SubscribeOutcome.failure`
covers any exception raised anywhere in the body.  Each `except` branch
calls `_register_subscribe_task` exactly once, after an `asyncio.sleep`
where the source sleeps.  The `NotAuthenticatedException` branch first
awaits `client.get_access_token()` and `client.authenticate(...)`
*inside the handler*: if either of those raises (`ReauthOutcome.raised`),
the new exception propagates out of the handler — no other `except`
clause applies — so no successor task is registered and the exception
escapes `_async_subscribe_for_data`. -/

inductive SubscribeOutcome
  | success (objects : List Bucket)
  | failure (exc : PyExc)

inductive ReauthOutcome
  | ok
  | raised (exc : PyExc)
deriving DecidableEq

structure CycleResult where
  successors : Nat
  sleepSeconds : Nat
  escaped : Option PyExc
deriving DecidableEq

def runCycle (sub : SubscribeOutcome) (reauth : ReauthOutcome) : CycleResult :=
  match sub with
  | .success _ => { successors := 1, sleepSeconds := 0, escaped := none }
  | .failure exc =>
      if isServerDisconnected exc then
        { successors := 1, sleepSeconds := 0, escaped := none }
      else if isTimeout exc then
        { successors := 1, sleepSeconds := 0, escaped := none }
      else if isClientConnector exc then
        { successors := 1, sleepSeconds := 0, escaped := none }
      else if isNotAuthenticated exc then
        match reauth with
        | .ok => { successors := 1, sleepSeconds := 0, escaped := none }
        | .raised e2 => { successors := 0, sleepSeconds := 0, escaped := some e2 }
      else if isNestService exc then
        { successors := 1, sleepSeconds := 120, escaped := none }
      else if isNestExc exc then
        { successors := 1, sleepSeconds := 60, escaped := none }
      else
        { successors := 1, sleepSeconds := 300, escaped := none }

/-! ## Startup classification (`async_setup_entry`, lines 125-143)

The `try` block wraps only the token exchange and `client.authenticate`;
`client.get_first_data` (the initial snapshot fetch) is *after* the
`try`, so an exception there propagates out of `async_setup_entry`
unclassified.  The `except` order is: `(TimeoutError, ClientError)` →
`ConfigEntryNotReady`; `BadCredentialsException` →
`ConfigEntryAuthFailed`; broad `Exception` → `ConfigEntryNotReady`. -/

inductive StepOutcome
  | ok
  | raised (exc : PyExc)
deriving DecidableEq

inductive StartupOutcome
  | setupOk
  | authFailed
  | notReady
  | unhandled (exc : PyExc)
deriving DecidableEq

def classifyAuthPhaseFailure (exc : PyExc) : StartupOutcome :=
  if isTimeout exc || isClientError exc then .notReady
  else if isBadCredentials exc then .authFailed
  else .notReady

def runStartup (authPhase firstData : StepOutcome) : StartupOutcome :=
  match authPhase with
  | .raised exc => classifyAuthPhaseFailure exc
  | .ok =>
      match firstData with
      | .raised exc => .unhandled exc
      | .ok => .setupOk

/-! ## Token exchange (`NestClient.get_access_token_from_refresh_token`,
`NestClient.get_access_token_from_cookies`)

Both parse the JSON response body the same way: if the body has an
`"error"` key whose value is `"invalid_grant"`, raise
`BadCredentialsException(result["error"])`; any other `"error"` value
raises a bare `Exception(result["error"])`; otherwise the body is passed
to the `GoogleAuthResponse` / `GoogleAuthResponseForCookies` dataclass
constructor.  The body is modelled as a record carrying the dataclass
fields plus the optional `"error"` key (`none` = key absent). -/

structure GoogleAuthResponse where
  access_token : String
  expires_in : Int
  scope : String
  token_type : String
  id_token : String
deriving DecidableEq

structure GoogleAuthResponseForCookies where
  access_token : String
  expires_in : Int
  scope : String
  token_type : String
  id_token : String
  login_hint : String
deriving DecidableEq

structure RefreshTokenBody where
  error : Option String
  access_token : String
  expires_in : Int
  scope : String
  token_type : String
  id_token : String
deriving DecidableEq

structure CookiesTokenBody where
  error : Option String
  access_token : String
  expires_in : Int
  scope : String
  token_type : String
  id_token : String
  login_hint : String
deriving DecidableEq

inductive AuthResult (α : Type)
  | badCredentials (msg : String)
  | genericError (msg : String)
  | success (auth : α)
deriving DecidableEq

def get_access_token_from_refresh_token (result : RefreshTokenBody) :
    AuthResult GoogleAuthResponse :=
  match result.error with
  | some e =>
      if e = "invalid_grant" then .badCredentials e
      else .genericError e
  | none =>
      .success ⟨result.access_token, result.expires_in, result.scope,
        result.token_type, result.id_token⟩

def get_access_token_from_cookies (result : CookiesTokenBody) :
    AuthResult GoogleAuthResponseForCookies :=
  match result.error with
  | some e =>
      if e = "invalid_grant" then .badCredentials e
      else .genericError e
  | none =>
      .success ⟨result.access_token, result.expires_in, result.scope,
        result.token_type, result.id_token, result.login_hint⟩

/-! ## Session establishment (`NestClient.authenticate`, lines 172-242)

The first request mints `nest_auth` (modelled by its `jwt` field; Python
`if nest_auth.jwt:` is a truthiness test, so both `None` and `""` take
the fallback branch).  When the JWT is truthy, the second request's
outcome is the environment: a parsed session dict (stored into
`self.nest_session` and returned), or a `ContentTypeError` /
`NestResponse(**...)` constructor failure, both of which raise
`NestException` with the HTTP status and raw body and leave
`self.nest_session` unchanged.  When the JWT is not truthy, the method
logs a warning and returns the previously held `self.nest_session`
without touching it. -/

structure NestResponse where
  access_token : String
  userid : String
  expires_in : String
deriving DecidableEq

def jwtTruthy : Option String → Bool
  | none => false
  | some j => j ≠ ""

inductive SessionStep
  | parsed (sess : NestResponse)
  | contentTypeError (status : Nat) (body : String)
  | parseFailure (status : Nat) (body : String)
deriving DecidableEq

inductive AuthenticateResult
  | returned (sess : Option NestResponse)
  | raisedNestException (status : Nat) (body : String)
deriving DecidableEq

/-- `authenticate` as a transition on the held `nest_session` state:
result value plus the new `nest_session`. -/
def authenticate (nest_session : Option NestResponse) (jwt : Option String)
    (step2 : SessionStep) : AuthenticateResult × Option NestResponse :=
  if jwtTruthy jwt then
    match step2 with
    | .parsed sess => (.returned (some sess), some sess)
    | .contentTypeError st body => (.raisedNestException st body, nest_session)
    | .parseFailure st body => (.raisedNestException st body, nest_session)
  else
    (.returned nest_session, nest_session)

/-! ## `NestClient.get_access_token` (lines 81-92)

```
if self.refresh_token:
    await self.get_access_token_from_refresh_token(self.refresh_token)
elif self.issue_token and self.cookies:
    await self.get_access_token_from_cookies(self.issue_token, self.cookies)
else:
    raise Exception("No credentials")
_LOGGER.debug(f"Got access token: {self.nest_session.access_token}")
return self.auth
```

The f-string argument is evaluated unconditionally (regardless of log
level), so when `self.nest_session` is `None` the attribute access
`self.nest_session.access_token` raises `AttributeError` *after* the
exchange has already stored the new token in `self.auth`.  The two
response bodies are the environment: whichever exchange the branch takes
consumes its body.  Python truthiness on the optional strings: `None`
and `""` are both falsy. -/

structure NestClientState where
  refresh_token : Option String
  issue_token : Option String
  cookies : Option String
  auth : Option GoogleAuthResponse
  nest_session : Option NestResponse
deriving DecidableEq

def optTruthy : Option String → Bool
  | none => false
  | some s => s ≠ ""

inductive GetAccessTokenResult
  | returnedAuth (auth : Option GoogleAuthResponse)
  | raisedAttributeError
  | raisedBadCredentials (msg : String)
  | raisedGeneric (msg : String)
  | raisedNoCredentials
deriving DecidableEq

/-- The cookies-path dataclass extends `GoogleAuthResponse`; for the
stored `self.auth` we keep the common base fields. -/
def cookiesAuthBase (a : GoogleAuthResponseForCookies) : GoogleAuthResponse :=
  ⟨a.access_token, a.expires_in, a.scope, a.token_type, a.id_token⟩

def get_access_token (st : NestClientState) (rbody : RefreshTokenBody)
    (cbody : CookiesTokenBody) : GetAccessTokenResult × NestClientState :=
  if optTruthy st.refresh_token then
    match get_access_token_from_refresh_token rbody with
    | .badCredentials m => (.raisedBadCredentials m, st)
    | .genericError m => (.raisedGeneric m, st)
    | .success a =>
        let st2 := { st with auth := some a }
        match st2.nest_session with
        | none => (.raisedAttributeError, st2)
        | some _ => (.returnedAuth st2.auth, st2)
  else if optTruthy st.issue_token && optTruthy st.cookies then
    match get_access_token_from_cookies cbody with
    | .badCredentials m => (.raisedBadCredentials m, st)
    | .genericError m => (.raisedGeneric m, st)
    | .success a =>
        let st2 := { st with auth := some (cookiesAuthBase a) }
        match st2.nest_session with
        | none => (.raisedAttributeError, st2)
        | some _ => (.returnedAuth st2.auth, st2)
  else
    (.raisedNoCredentials, st)

/-! ## Sample concrete data for witnesses and counterexamples -/

def emptyEntryData : EntryData :=
  ⟨[], [], [], [], [], [], [], []⟩

def sampleValueA : BucketValue :=
  ⟨"Home", "UTC", "where-1", "3.6", "6.2-22", "structure.abc", [], []⟩

def sampleValueB : BucketValue :=
  ⟨"Home", "UTC", "where-2", "3.6", "6.2-22", "structure.abc", [], []⟩

/-- Stored record: `device.123` at revision 5. -/
def c1_old : Bucket := ⟨"device.123", 5, 100, sampleValueA⟩

/-- Incoming record for the same key at the *lower* revision 4, with a
different `where_id`. -/
def c1_new : Bucket := ⟨"device.123", 4, 90, sampleValueB⟩

/-- Store state holding `c1_old`, with the derived indices the `device.`
branch populates for it. -/
def c1_e : EntryData :=
  { emptyEntryData with
      devices := [("device.123", c1_old)],
      thermostats := [("123", "where-1")],
      thermostat_device_info := [("123", ("3.6", "6.2-22"))] }

/-- Stored record: `device.456` at revision 7. -/
def c5_b : Bucket := ⟨"device.456", 7, 200, sampleValueA⟩

/-- Store state already holding exactly what re-delivering `c5_b` writes,
so the re-delivery is a pure no-op on state. -/
def c5_e : EntryData :=
  { emptyEntryData with
      devices := [("device.456", c5_b)],
      thermostats := [("456", "where-1")],
      thermostat_device_info := [("456", ("3.6", "6.2-22"))] }

def c6_invalidGrantBody : RefreshTokenBody :=
  ⟨some "invalid_grant", "", 0, "", "", ""⟩

def c6_serverErrorBody : RefreshTokenBody :=
  ⟨some "server_error", "", 0, "", "", ""⟩

def c6_okBody : RefreshTokenBody :=
  ⟨none, "tok", 3600, "scope", "Bearer", "id-tok"⟩

def c6_cookiesOkBody : CookiesTokenBody :=
  ⟨none, "tok", 3600, "scope", "Bearer", "id-tok", "user@example.com"⟩

def c7_session : NestResponse :=
  ⟨"sess-token", "user-1", "Tue, 01-Mar-2022 23:15:55 GMT"⟩

/-- A long-poll response record whose key is not tracked by the cursor. -/
def c8_resp : Bucket := ⟨"device.789", 6, 300, sampleValueB⟩

def c10_state : NestClientState :=
  ⟨some "refresh-tok", none, none, none, none⟩

/-- An unrecognized record whose object key has no `"."` at all. -/
def c9_nodot : Bucket := ⟨"mystery", 1, 10, sampleValueA⟩

/-- An unrecognized record whose object key does contain a `"."`. -/
def c9_dotted : Bucket := ⟨"mystery.9", 1, 10, sampleValueA⟩

def c9_structure : Bucket := ⟨"structure.abc", 2, 20, sampleValueA⟩

/-! ## Helper lemmas -/

theorem dictGet_map_replace {α : Type} (d : List (String × α)) (k : String)
    (v : α) (h : k ∈ dictKeys d) :
    dictGet (d.map (fun p => if p.1 = k then (k, v) else p)) k = some v := by
  induction d with
  | nil => simp [dictKeys] at h
  | cons p rest ih =>
    by_cases hp : p.1 = k
    · simp [dictGet, hp]
    · have hr : k ∈ dictKeys rest := by
        rcases (by simpa [dictKeys] using h : k = p.1 ∨ k ∈ dictKeys rest) with
          he | hm
        · exact absurd he.symm hp
        · exact hm
      have hi := ih hr
      simp only [List.map_cons, if_neg hp, dictGet, List.find?_cons] at hi ⊢
      simp [hp, Ne.symm, show ¬(p.1 == k) = true by simp [hp]] at hi ⊢
      exact hi

theorem dictGet_append_new {α : Type} (d : List (String × α)) (k : String)
    (v : α) (h : k ∉ dictKeys d) :
    dictGet (d ++ [(k, v)]) k = some v := by
  induction d with
  | nil => simp [dictGet]
  | cons p rest ih =>
    have hkeys : dictKeys (p :: rest) = p.1 :: dictKeys rest := rfl
    have hp : ¬(p.1 = k) := fun he =>
      h (by rw [hkeys, he]; exact List.mem_cons_self _ _)
    have hr : k ∉ dictKeys rest := fun hm =>
      h (by rw [hkeys]; exact List.mem_cons_of_mem _ hm)
    have hi := ih hr
    simp only [List.cons_append, dictGet, List.find?_cons] at hi ⊢
    simp [show ¬(p.1 == k) = true by simp [hp]] at hi ⊢
    exact hi

theorem dictGet_insert {α : Type} (d : List (String × α)) (k : String) (v : α) :
    dictGet (dictInsert d k v) k = some v := by
  unfold dictInsert
  by_cases h : k ∈ dictKeys d
  · have hb : (dictKeys d).contains k = true := by simpa using h
    simp only [hb, if_true]
    exact dictGet_map_replace d k v h
  · have hb : (dictKeys d).contains k = false := by simpa using h
    simp only [hb, Bool.false_eq_true, if_false]
    exact dictGet_append_new d k v h

/-! ## Claim C1 -/

/-- Claim C1, counterexample: the delta loop performs no revision check.
With `device.123` stored at revision 5, merging the same key at revision 4
(lower) with a different payload changes the store and the key appears
among the dispatched (changed) keys — the claimed drop does not happen. -/
theorem c1_counterexample :
    c1_new.object_revision ≤ c1_old.object_revision ∧
    dictGet c1_e.devices c1_new.object_key = some c1_old ∧
    (processDelta c1_e [c1_new]).1 ≠ c1_e ∧
    ((processDelta c1_e [c1_new]).2.map Prod.fst).contains "device.123" = true := by
  decide

/-- Claim C1 (amended): the merge applies every recognized record
unconditionally — even a record whose revision is less than or equal to
the stored revision replaces the stored record and its key is dispatched
as changed (for every recognized bucket type except `where.`, which never
touches the device store). -/
theorem c1_merge_applies_unconditionally
    (e : EntryData) (b old : Bucket) (t : BucketType)
    (ht : bucketTypeOf b.object_key = some t) (hw : t ≠ BucketType.whereT)
    (_hold : dictGet e.devices b.object_key = some old)
    (_hrev : b.object_revision ≤ old.object_revision) :
    dictGet (processDeltaBucket e b).1.devices b.object_key = some b ∧
    (processDeltaBucket e b).2 = [(b.object_key, b)] := by
  cases t <;>
    first
      | exact absurd rfl hw
      | simp [processDeltaBucket, ht, dictGet_insert]

/-- Claim C1 witness: the amended theorem applied at the concrete
lower-revision re-delivery of `device.123`. -/
theorem c1_witness :
    dictGet (processDeltaBucket c1_e c1_new).1.devices c1_new.object_key =
      some c1_new ∧
    (processDeltaBucket c1_e c1_new).2 = [(c1_new.object_key, c1_new)] :=
  c1_merge_applies_unconditionally c1_e c1_new c1_old BucketType.device
    (by decide) (by decide) (by decide) (by decide)

/-! ## Claim C5 -/

/-- Claim C5, counterexample: re-delivering a record identical to the
stored one is a no-op on the store and on every derived index (the
resulting state equals the old state), yet a change notification for its
key is still dispatched — contradicting "never for no-op merges". -/
theorem c5_counterexample :
    (processDeltaBucket c5_e c5_b).1 = c5_e ∧
    (processDeltaBucket c5_e c5_b).2 = [("device.456", c5_b)] := by
  decide

/-- Claim C5 (amended): the loop dispatches exactly one notification per
processed record of every recognized type except `where.`, regardless of
whether the merge changed any stored state; `where.` records (which do
update the areas index) and unrecognized records dispatch none. -/
theorem c5_dispatch_per_record (e : EntryData) (b : Bucket) :
    (processDeltaBucket e b).2 =
      match bucketTypeOf b.object_key with
      | none => []
      | some BucketType.whereT => []
      | some _ => [(b.object_key, b)] := by
  rcases ht : bucketTypeOf b.object_key with _ | t
  · simp [processDeltaBucket, ht]
  · cases t <;> simp [processDeltaBucket, ht]

/-! ## Claim C9 -/

/-- Claim C9, counterexample: in the initial-snapshot loop the id
extraction `key.split(".")[1]` runs before any prefix test, so an
unrecognized key *without* a dot raises `IndexError`, aborting the batch:
the following `structure.abc` record is never processed. -/
theorem c9_counterexample :
    bucketTypeOf c9_nodot.object_key = none ∧
    processSnapshot emptyEntryData [c9_nodot, c9_structure] =
      Except.error "IndexError: list index out of range" :=
  ⟨by decide, rfl⟩

/-- Claim C9 (amended): a record whose key prefix is unrecognized and
whose key contains a `"."` separator is silently ignored by both the
delta loop and the snapshot loop — state, indices and dispatched events
are exactly as if the record were absent and the rest of the batch is
still processed.  (In the delta loop this holds for dotless keys too, but
in the snapshot loop a dotless key raises `IndexError`.) -/
theorem c9_unknown_ignored (e : EntryData) (b : Bucket) (rest : List Bucket)
    (ht : bucketTypeOf b.object_key = none)
    (hdot : 2 ≤ (splitDot b.object_key).length) :
    processDeltaBucket e b = (e, []) ∧
    processDelta e (b :: rest) = processDelta e rest ∧
    processSnapshotBucket e b = Except.ok e ∧
    processSnapshot e (b :: rest) = processSnapshot e rest := by
  have h1 : processDeltaBucket e b = (e, []) := by
    simp [processDeltaBucket, ht]
  have h3 : processSnapshotBucket e b = Except.ok e := by
    simp [processSnapshotBucket, hdot, ht]
  refine ⟨h1, ?_, h3, ?_⟩
  · simp [processDelta, h1]
  · simp [processSnapshot, h3]

/-- Claim C9 witness: the amended theorem applied to the concrete
unrecognized dotted record `mystery.9` followed by a structure record. -/
theorem c9_witness :
    processDeltaBucket emptyEntryData c9_dotted = (emptyEntryData, []) ∧
    processDelta emptyEntryData (c9_dotted :: [c9_structure]) =
      processDelta emptyEntryData [c9_structure] ∧
    processSnapshotBucket emptyEntryData c9_dotted =
      Except.ok emptyEntryData ∧
    processSnapshot emptyEntryData (c9_dotted :: [c9_structure]) =
      processSnapshot emptyEntryData [c9_structure] :=
  c9_unknown_ignored emptyEntryData c9_dotted [c9_structure]
    (by decide) (by decide)

/-! ## Claim C2 -/

/-- Claim C2: per-failure-class re-arm delays of one long-poll cycle.
Server disconnect, client-side timeout and connect failure re-arm with no
sleep; HTTP 504 and 502 raise the two `NestServiceException` subclasses
and re-arm after a 120 s sleep; a `NestException` (recognized but
unclassified vendor protocol error) re-arms after 60 s; every other
exception re-arms after 300 s.  In each case exactly one successor is
registered and nothing escapes. -/
theorem c2_backoff_policy :
    (∀ re, runCycle (.failure .ServerDisconnectedError) re =
      { successors := 1, sleepSeconds := 0, escaped := none }) ∧
    (∀ re, runCycle (.failure .TimeoutError) re =
      { successors := 1, sleepSeconds := 0, escaped := none }) ∧
    (∀ re, runCycle (.failure .ClientConnectorError) re =
      { successors := 1, sleepSeconds := 0, escaped := none }) ∧
    subscribeStatusError 504 = some .GatewayTimeoutException ∧
    (∀ re, runCycle (.failure .GatewayTimeoutException) re =
      { successors := 1, sleepSeconds := 120, escaped := none }) ∧
    subscribeStatusError 502 = some .BadGatewayException ∧
    (∀ re, runCycle (.failure .BadGatewayException) re =
      { successors := 1, sleepSeconds := 120, escaped := none }) ∧
    (∀ re, runCycle (.failure .NestException) re =
      { successors := 1, sleepSeconds := 60, escaped := none }) ∧
    (∀ exc re, isServerDisconnected exc = false → isTimeout exc = false →
      isClientConnector exc = false → isNotAuthenticated exc = false →
      isNestService exc = false → isNestExc exc = false →
      runCycle (.failure exc) re =
        { successors := 1, sleepSeconds := 300, escaped := none }) := by
  refine ⟨fun re => rfl, fun re => rfl, fun re => rfl, by decide,
    fun re => rfl, by decide, fun re => rfl, fun re => rfl, ?_⟩
  intro exc re h1 h2 h3 h4 h5 h6
  cases exc <;>
    simp_all [runCycle, isServerDisconnected, isTimeout, isClientConnector,
      isNotAuthenticated, isNestService, isNestExc]

/-- Claim C2 witness: the catch-all branch applied at the concrete
unclassified exception `BadCredentialsException`, plus one concrete
zero-delay branch. -/
theorem c2_witness :
    runCycle (.failure .BadCredentialsException) .ok =
      { successors := 1, sleepSeconds := 300, escaped := none } ∧
    runCycle (.failure .ServerDisconnectedError) .ok =
      { successors := 1, sleepSeconds := 0, escaped := none } :=
  ⟨c2_backoff_policy.2.2.2.2.2.2.2.2 .BadCredentialsException .ok
      (by decide) (by decide) (by decide) (by decide) (by decide) (by decide),
    c2_backoff_policy.1 .ok⟩

/-! ## Claim C3 -/

/-- Claim C3, counterexample: a cycle that fails with the 401
`NotAuthenticatedException` runs the re-authentication inside the
`except` handler; if that re-authentication itself raises (here:
`BadCredentialsException` from the token exchange), the exception
escapes `_async_subscribe_for_data` and no successor cycle is scheduled —
the loop terminates without external cancellation. -/
theorem c3_counterexample :
    runCycle (.failure .NotAuthenticatedException)
        (.raised .BadCredentialsException) =
      { successors := 0, sleepSeconds := 0,
        escaped := some .BadCredentialsException } := by
  decide

/-- Claim C3 (amended): every cycle schedules exactly one successor and
lets no exception escape, *except* when the long-poll fails with a 401
and the re-authentication performed inside that handler itself raises:
then no successor is scheduled and the new exception escapes the cycle. -/
theorem c3_one_successor (sub : SubscribeOutcome) (re : ReauthOutcome) :
    ((runCycle sub re).successors = 1 ∧ (runCycle sub re).escaped = none) ∨
    (∃ exc e2, sub = .failure exc ∧ isNotAuthenticated exc = true ∧
      re = .raised e2 ∧
      runCycle sub re =
        { successors := 0, sleepSeconds := 0, escaped := some e2 }) := by
  cases sub with
  | success objs => exact Or.inl ⟨rfl, rfl⟩
  | failure exc =>
    cases re with
    | ok =>
      cases exc <;> exact Or.inl ⟨rfl, rfl⟩
    | raised e2 =>
      cases exc <;>
        first
          | exact Or.inr ⟨_, e2, rfl, rfl, rfl, rfl⟩
          | exact Or.inl ⟨rfl, rfl⟩

/-! ## Claim C4 -/

/-- Claim C4, counterexample: the startup classification (`try` block of
`async_setup_entry`) covers only the auth exchanges; the initial snapshot
fetch `client.get_first_data` sits after the `try`, so a transport
timeout raised there escapes unclassified instead of surfacing as the
retryable-startup error `ConfigEntryNotReady`. -/
theorem c4_counterexample :
    runStartup .ok (.raised .TimeoutError) =
      StartupOutcome.unhandled .TimeoutError ∧
    StartupOutcome.unhandled .TimeoutError ≠ StartupOutcome.notReady ∧
    isTimeout .TimeoutError = true := by
  decide

/-- Claim C4 (amended): during the authentication exchanges a
`BadCredentialsException` surfaces as the fatal configuration-auth error
and every other exception (timeout, transport, unclassified) surfaces as
the retryable-startup error; but the initial snapshot fetch is outside
this classification — any failure there escapes `async_setup_entry`
unclassified. -/
theorem c4_startup_classification :
    (∀ exc fd, runStartup (.raised exc) fd =
      if isBadCredentials exc = true then StartupOutcome.authFailed
      else StartupOutcome.notReady) ∧
    (∀ exc, runStartup .ok (.raised exc) = StartupOutcome.unhandled exc) := by
  refine ⟨?_, fun exc => rfl⟩
  intro exc fd
  cases exc <;> rfl

/-! ## Claim C6 -/

/-- Claim C6: in both access-token exchanges, a body whose `"error"`
field is `"invalid_grant"` fails with `BadCredentialsException`; any
other `"error"` value fails with a generic error that is not
`BadCredentials`; a body without an `"error"` field parses into a
successful access credential. -/
theorem c6_error_classification (r : RefreshTokenBody) (c : CookiesTokenBody) :
    (r.error = some "invalid_grant" →
      get_access_token_from_refresh_token r =
        .badCredentials "invalid_grant") ∧
    (∀ e, r.error = some e → e ≠ "invalid_grant" →
      get_access_token_from_refresh_token r = .genericError e ∧
      ∀ m, get_access_token_from_refresh_token r ≠ .badCredentials m) ∧
    (r.error = none →
      ∃ a, get_access_token_from_refresh_token r = .success a) ∧
    (c.error = some "invalid_grant" →
      get_access_token_from_cookies c = .badCredentials "invalid_grant") ∧
    (∀ e, c.error = some e → e ≠ "invalid_grant" →
      get_access_token_from_cookies c = .genericError e ∧
      ∀ m, get_access_token_from_cookies c ≠ .badCredentials m) ∧
    (c.error = none →
      ∃ a, get_access_token_from_cookies c = .success a) := by
  refine ⟨?_, ?_, ?_, ?_, ?_, ?_⟩
  · intro h; simp [get_access_token_from_refresh_token, h]
  · intro e h hne
    simp [get_access_token_from_refresh_token, h, hne]
  · intro h
    exact ⟨⟨r.access_token, r.expires_in, r.scope, r.token_type, r.id_token⟩,
      by simp [get_access_token_from_refresh_token, h]⟩
  · intro h; simp [get_access_token_from_cookies, h]
  · intro e h hne
    simp [get_access_token_from_cookies, h, hne]
  · intro h
    exact ⟨⟨c.access_token, c.expires_in, c.scope, c.token_type, c.id_token,
      c.login_hint⟩, by simp [get_access_token_from_cookies, h]⟩

/-- Claim C6 witness: the classification applied at concrete response
bodies (`invalid_grant`, `server_error`, no error, and the cookies-path
success). -/
theorem c6_witness :
    get_access_token_from_refresh_token c6_invalidGrantBody =
      .badCredentials "invalid_grant" ∧
    (get_access_token_from_refresh_token c6_serverErrorBody =
        .genericError "server_error" ∧
      ∀ m, get_access_token_from_refresh_token c6_serverErrorBody ≠
        .badCredentials m) ∧
    (∃ a, get_access_token_from_refresh_token c6_okBody = .success a) ∧
    (∃ a, get_access_token_from_cookies c6_cookiesOkBody = .success a) :=
  ⟨(c6_error_classification c6_invalidGrantBody c6_cookiesOkBody).1 rfl,
    (c6_error_classification c6_serverErrorBody c6_cookiesOkBody).2.1
      "server_error" rfl (by decide),
    (c6_error_classification c6_okBody c6_cookiesOkBody).2.2.1 rfl,
    (c6_error_classification c6_okBody c6_cookiesOkBody).2.2.2.2.2 rfl⟩

/-! ## Claim C7 -/

/-- Claim C7: when the JWT-issuance step returns no (truthy) JWT and a
session is already held, `authenticate` returns that previously held
session unchanged — it neither raises nor returns `None` — and the held
`nest_session` state is not modified. -/
theorem c7_no_jwt_fallback (s : NestResponse) (jwt : Option String)
    (step2 : SessionStep) (h : jwtTruthy jwt = false) :
    authenticate (some s) jwt step2 =
      (AuthenticateResult.returned (some s), some s) := by
  simp [authenticate, h]

/-- Claim C7 witness: the fallback applied at a concrete held session
with a `None` JWT (the second-step outcome is irrelevant and arbitrary). -/
theorem c7_witness :
    authenticate (some c7_session) none (.contentTypeError 200 "ignored") =
      (AuthenticateResult.returned (some c7_session), some c7_session) :=
  c7_no_jwt_fallback c7_session none (.contentTypeError 200 "ignored")
    (by decide)

/-! ## Claim C10 -/

/-- Claim C10: `get_access_token` called while `nest_session` is `None`
(the state every lazy re-auth chain starts from) performs the token
exchange, stores the fresh credential in `self.auth`, and then raises
`AttributeError` from the debug f-string
`self.nest_session.access_token` instead of returning the credential —
on both the refresh-token path and the issue-token-and-cookies path. -/
theorem c10_attribute_error (st : NestClientState) (rbody : RefreshTokenBody)
    (cbody : CookiesTokenBody) (hs : st.nest_session = none) :
    (optTruthy st.refresh_token = true → rbody.error = none →
      (get_access_token st rbody cbody).1 =
        GetAccessTokenResult.raisedAttributeError ∧
      (get_access_token st rbody cbody).2.auth =
        some ⟨rbody.access_token, rbody.expires_in, rbody.scope,
          rbody.token_type, rbody.id_token⟩) ∧
    (optTruthy st.refresh_token = false → optTruthy st.issue_token = true →
      optTruthy st.cookies = true → cbody.error = none →
      (get_access_token st rbody cbody).1 =
        GetAccessTokenResult.raisedAttributeError) := by
  constructor
  · intro hr he
    simp [get_access_token, get_access_token_from_refresh_token, hr, he, hs]
  · intro hr hi hc he
    simp [get_access_token, get_access_token_from_cookies, hr, hi, hc, he, hs]

/-- Claim C10 witness: the refresh-token path applied at the concrete
fresh client state (no session ever established) with a successful
exchange body. -/
theorem c10_witness :
    (get_access_token c10_state c6_okBody c6_cookiesOkBody).1 =
      GetAccessTokenResult.raisedAttributeError ∧
    (get_access_token c10_state c6_okBody c6_cookiesOkBody).2.auth =
      some ⟨"tok", 3600, "scope", "Bearer", "id-tok"⟩ :=
  (c10_attribute_error c10_state c6_okBody c6_cookiesOkBody rfl).1
    (by decide) rfl

/-! ## Claim C8 -/

/-- Claim C8, counterexample: the cursor update maps over the *old*
tracked entries only.  With an empty cursor and a response containing
`device.789`, the key appears in the response but the updated cursor has
no entry for it — it is not "replaced by the response's entry". -/
theorem c8_counterexample :
    ([c8_resp].map Bucket.object_key).contains "device.789" = true ∧
    updateCursor [] [c8_resp] = [] := by
  decide

/-- Claim C8 (amended): after a successful long-poll response the cursor
keeps exactly its previously tracked entries, positionally: an entry
whose key does not occur in the response is left exactly as it was; an
entry whose key occurs in the response is replaced by the response's
(last) record for that key; but response records whose keys were not
already tracked are not added to the cursor. -/
theorem c8_cursor_update (ub objs : List Bucket) :
    (updateCursor ub objs).length = ub.length ∧
    (∀ (i : Nat) (d : Bucket), ub[i]? = some d →
      lastLookup objs d.object_key = none →
      (updateCursor ub objs)[i]? = some d) ∧
    (∀ (i : Nat) (d b : Bucket), ub[i]? = some d →
      lastLookup objs d.object_key = some b →
      (updateCursor ub objs)[i]? = some b) ∧
    (∀ d : Bucket, lastLookup objs d.object_key = none →
      ∀ b, b ∈ objs → b.object_key ≠ d.object_key) ∧
    (∀ b, b ∈ objs → (∀ d, d ∈ ub → d.object_key ≠ b.object_key) →
      ∀ c, c ∈ updateCursor ub objs → c.object_key ≠ b.object_key) := by
  refine ⟨by simp [updateCursor], ?_, ?_, ?_, ?_⟩
  · intro i d hd hnone
    rw [updateCursor, List.getElem?_map, hd]
    simp [hnone]
  · intro i d b hd hsome
    rw [updateCursor, List.getElem?_map, hd]
    simp [hsome]
  · intro d hnone b hb
    have := (List.find?_eq_none.mp hnone) b (List.mem_reverse.mpr hb)
    simpa using this
  · intro b hb hfresh c hc
    rw [updateCursor] at hc
    rcases List.mem_map.mp hc with ⟨d, hd, hdc⟩
    rcases hl : lastLookup objs d.object_key with _ | b2
    · simp only [hl] at hdc
      rw [← hdc]
      exact hfresh d hd
    · simp only [hl] at hdc
      have hkey : b2.object_key = d.object_key := by
        simpa using List.find?_some hl
      rw [← hdc, hkey]
      exact hfresh d hd

/-- Claim C8 witness: the amended theorem's replacement part applied at a
concrete one-entry cursor whose key occurs in the response. -/
theorem c8_witness :
    (updateCursor [c1_old] [c1_new])[0]? = some c1_new :=
  (c8_cursor_update [c1_old] [c1_new]).2.2.1 0 c1_old c1_new
    (by decide) (by decide)

end GoogleNest
